import Mathlib

namespace WhoopApp

/-! Shallow embedding of the WHOOP_APP core: the encrypted token vault
(`src/Project/utils/tokenStorage.js`), and the background strain poller
(`src/Project/worker/strainPoller.js`) together with the SSE fan-out of
`src/Project/app.js`.  Encryption round-trips (`decrypt ∘ encrypt = id`), so
the persistent `user_tokens` table is modelled as an association list from
user id to the decrypted record. -/

/-- A decrypted token record.  JavaScript object fields may be absent, so
every field is an `Option`; `expiresAt` is epoch milliseconds. -/
structure TokenData where
  accessToken : Option String
  refreshToken : Option String
  expiresAt : Option Int
  strainPollingEnabled : Option Bool
  updatedAt : Option String
  deriving Repr, DecidableEq

/-- The empty JavaScript object `{}` used to build patches. -/
def emptyData : TokenData :=
  { accessToken := none, refreshToken := none, expiresAt := none,
    strainPollingEnabled := none, updatedAt := none }

/-- The `user_tokens` table, decrypted: at most one record per user id. -/
abbrev Store := List (String × TokenData)

/-- `SELECT encrypted_data FROM user_tokens WHERE user_id = $1` (plus decrypt). -/
def storeGet : Store → String → Option TokenData
  | [], _ => none
  | (k, d) :: rest, u => if k = u then some d else storeGet rest u

/-- `DELETE FROM user_tokens WHERE user_id = $1`. -/
def storeDel : Store → String → Store
  | [], _ => []
  | (k, d) :: rest, u => if k = u then storeDel rest u else (k, d) :: storeDel rest u

/-- `INSERT ... ON CONFLICT (user_id) DO UPDATE SET encrypted_data = $2`: upsert. -/
def storeSet (s : Store) (u : String) (d : TokenData) : Store :=
  storeDel s u ++ [(u, d)]

/-- JavaScript truthiness of the `expiresAt` field: absent and `0` are falsy. -/
def truthyExpiry : Option Int → Bool
  | none => false
  | some e => e != 0

/-- Outcome of the `fetch` against `/oauth/oauth2/token`: a parsed 2xx body,
a non-2xx response (`!response.ok`, which includes invalid-grant rejections),
or a rejected fetch (network failure). -/
inductive RefreshOutcome where
  | ok (accessToken refreshToken : String) (expiresIn : Int)
  | httpError (status : Nat) (body : String)
  | networkError
  deriving Repr, DecidableEq

/-- The object `dataToEncrypt` built by `TokenStorage.set`: spreads the given
patch only (no read of the previously stored record), stamps `updatedAt`, and
defaults a falsy `expiresAt` to `Date.now() + 1000*60*60*24`. -/
def setRecord (now : Int) (nowIso : String) (patch : TokenData) : TokenData :=
  { patch with
    updatedAt := some nowIso,
    expiresAt := if truthyExpiry patch.expiresAt then patch.expiresAt
                 else some (now + 86400000) }

/-- `TokenStorage.set(userId, tokenData)` (tokenStorage.js lines 101-122). -/
def TokenStorage.set (s : Store) (now : Int) (nowIso : String) (u : String)
    (patch : TokenData) : Store :=
  storeSet s u (setRecord now nowIso patch)

/-- `TokenStorage.refreshToken(userId, tokenData)` (tokenStorage.js lines
130-184).  On a 2xx response it spreads the old record under the new token
fields, persists via `set`, and returns the refreshed record; on any error
(non-2xx response or rejected fetch) the catch block deletes the record and
rethrows, modelled as `none`. -/
def TokenStorage.refreshToken (s : Store) (now : Int) (nowIso : String)
    (u : String) (tokenData : TokenData) (resp : RefreshOutcome) :
    Option TokenData × Store :=
  match resp with
  | RefreshOutcome.ok a r expIn =>
    let refreshed : TokenData :=
      { tokenData with
        accessToken := some a,
        refreshToken := some r,
        expiresAt := some (now + expIn * 1000) }
    (some refreshed, TokenStorage.set s now nowIso u refreshed)
  | RefreshOutcome.httpError _ _ => (none, storeDel s u)
  | RefreshOutcome.networkError => (none, storeDel s u)

/-- `TokenStorage.getRaw(userId)` (tokenStorage.js lines 191-203). -/
def TokenStorage.getRaw (s : Store) (u : String) : Option TokenData :=
  storeGet s u

/-- `TokenStorage.get(userId)` (tokenStorage.js lines 205-228): read the raw
record; if `tokenData.expiresAt && tokenData.expiresAt < Date.now()` try a
refresh, returning its result, or `null` if it threw (the record having been
deleted inside `refreshToken`). -/
def TokenStorage.get (s : Store) (now : Int) (nowIso : String) (u : String)
    (resp : RefreshOutcome) : Option TokenData × Store :=
  match TokenStorage.getRaw s u with
  | none => (none, s)
  | some td =>
    match td.expiresAt with
    | some e =>
      if e ≠ 0 ∧ e < now then TokenStorage.refreshToken s now nowIso u td resp
      else (some td, s)
    | none => (some td, s)

/-! Interleaving model for concurrent calls to `TokenStorage.get`.  The
JavaScript function suspends at `await` points: the database read inside
`getRaw` and the token-endpoint `fetch` inside `refreshToken` happen at
distinct ticks of the event loop, so two concurrent `get` calls may both read
before either refresh completes.  `fetchCount` counts round trips issued
against the token endpoint. -/

/-- Shared state seen by concurrent `get` calls. -/
structure World where
  store : Store
  fetchCount : Nat
  deriving Repr, DecidableEq

/-- Progress of a single `get(userId)` call: not yet started, resumed after
the `getRaw` database read, or finished with its return value. -/
inductive GetPhase where
  | ready
  | afterRead (td : Option TokenData)
  | finished (res : Option TokenData)
  deriving Repr, DecidableEq

/-- One event-loop resumption of a `get(userId)` call: `ready` performs the
`getRaw` read and suspends; `afterRead` runs the expiry check and, when the
record is expired, issues the refresh round trip (counting it) and completes;
a finished call stays finished. -/
def stepGet (now : Int) (nowIso : String) (u : String) (resp : RefreshOutcome)
    (w : World) (ph : GetPhase) : World × GetPhase :=
  match ph with
  | GetPhase.ready => (w, GetPhase.afterRead (storeGet w.store u))
  | GetPhase.afterRead none => (w, GetPhase.finished none)
  | GetPhase.afterRead (some td) =>
    match td.expiresAt with
    | some e =>
      if e ≠ 0 ∧ e < now then
        let w1 : World := { w with fetchCount := w.fetchCount + 1 }
        let out := TokenStorage.refreshToken w1.store now nowIso u td resp
        ({ w1 with store := out.2 }, GetPhase.finished out.1)
      else (w, GetPhase.finished (some td))
    | none => (w, GetPhase.finished (some td))
  | GetPhase.finished r => (w, GetPhase.finished r)

/-- Run two concurrent `get(u)` calls under an explicit schedule: `true`
steps the first caller (whose refresh response is `r1`), `false` steps the
second (response `r2`). -/
def runTwo (now : Int) (nowIso : String) (u : String)
    (r1 r2 : RefreshOutcome) :
    List Bool → World → GetPhase → GetPhase → World × GetPhase × GetPhase
  | [], w, p1, p2 => (w, p1, p2)
  | true :: rest, w, p1, p2 =>
    let s := stepGet now nowIso u r1 w p1
    runTwo now nowIso u r1 r2 rest s.1 s.2 p2
  | false :: rest, w, p1, p2 =>
    let s := stepGet now nowIso u r2 w p2
    runTwo now nowIso u r1 r2 rest s.1 p1 s.2

/-! Strain poller (`src/Project/worker/strainPoller.js`) and the SSE
listeners registered by `GET /events/strain` (`src/Project/app.js`). -/

/-- The strain payload built from `data.records[0]`, kept abstract. -/
abbrev Sample := String

/-- One SSE listener: the `send` closure registered via
`strainEmitter.on('strain', send)`.  It delivers only when the event's
`userId` equals `req.user.userId` (`userFilter`); `throws` records whether
its `res.write` throws synchronously. -/
structure Listener where
  id : Nat
  userFilter : String
  throws : Bool
  deriving Repr, DecidableEq

/-- `strainEmitter.emit('strain', {userId, data})` with Node's EventEmitter
semantics: listeners run synchronously in registration order; a listener
that throws aborts the emit, so later listeners are skipped and the
exception escapes `emit` (second component `true`).  Returns the
deliveries performed. -/
def emitStrain (ls : List Listener) (uid : String) (sample : Sample) :
    List (Nat × Sample) × Bool :=
  match ls with
  | [] => ([], false)
  | l :: rest =>
    if l.userFilter = uid then
      if l.throws then ([], true)
      else
        let out := emitStrain rest uid sample
        ((l.id, sample) :: out.1, out.2)
    else emitStrain rest uid sample

/-- Outcome of `makeWhoopApiCall('/developer/v1/cycle?limit=1', userId)`:
a parsed body with its `records` array, or a thrown error (auth failure,
network failure, non-2xx response). -/
inductive ApiResult where
  | ok (records : List Sample)
  | error
  deriving Repr, DecidableEq

/-- Outcome of `sendToFoundry("strain", strainData)`: returned normally or
threw (rejected fetch or non-2xx response). -/
inductive FoundryOutcome where
  | ok
  | fail
  deriving Repr, DecidableEq

/-- State touched by the poller module: the `activeTimers` map (user id to
interval handle), the handle counter, the log of cycles started by
`startUserPolling`'s immediate `pollUserStrain(userId)` call, the log of
sink requests issued by `sendToFoundry`, the registered SSE listeners, and
the deliveries made to them. -/
structure PollerState where
  activeTimers : List (String × Nat)
  nextHandle : Nat
  immediatePolls : List String
  foundrySent : List (String × String)
  listeners : List Listener
  delivered : List (Nat × Sample)
  deriving Repr, DecidableEq

/-- `pollUserStrain(userId)` (strainPoller.js lines 18-51).  The whole body
is wrapped in try/catch returning `null`: an API error yields `null`; an
empty `records` array logs and returns `null` touching nothing; otherwise
the sample is sent to Foundry (a throw there is caught before any emit), and
on success broadcast via `strainEmitter.emit` — a listener throw escapes
`emit`, is caught by the same catch, and the function returns `null`. -/
def pollUserStrain (st : PollerState) (u : String) (api : ApiResult)
    (fo : FoundryOutcome) : PollerState × Option Sample :=
  match api with
  | ApiResult.error => (st, none)
  | ApiResult.ok [] => (st, none)
  | ApiResult.ok (rec :: _) =>
    match fo with
    | FoundryOutcome.fail =>
      ({ st with foundrySent := st.foundrySent ++ [("strain", u)] }, none)
    | FoundryOutcome.ok =>
      let st1 : PollerState :=
        { st with foundrySent := st.foundrySent ++ [("strain", u)] }
      let out := emitStrain st1.listeners u rec
      let st2 : PollerState := { st1 with delivered := st1.delivered ++ out.1 }
      if out.2 then (st2, none) else (st2, some rec)

/-- `startUserPolling(userId)` (strainPoller.js lines 57-66): no-op when
`activeTimers.has(userId)`; otherwise fires one immediate
`pollUserStrain(userId)` (recorded in `immediatePolls`), arms the interval,
and stores its handle in the map. -/
def startUserPolling (st : PollerState) (u : String) : PollerState :=
  if st.activeTimers.any (fun p => p.1 == u) then st
  else
    { st with
      immediatePolls := st.immediatePolls ++ [u],
      activeTimers := st.activeTimers ++ [(u, st.nextHandle)],
      nextHandle := st.nextHandle + 1 }

/-- `stopUserPolling(userId)` (strainPoller.js lines 72-78): look up the
handle; return untouched when absent; otherwise clear the interval and
delete the map entry. -/
def stopUserPolling (st : PollerState) (u : String) : PollerState :=
  match st.activeTimers.find? (fun p => p.1 == u) with
  | none => st
  | some _ =>
    { st with activeTimers := st.activeTimers.filter (fun p => p.1 != u) }

/-! Helper lemmas shared by the claim theorems. -/

theorem storeGet_storeDel (s : Store) (u : String) :
    storeGet (storeDel s u) u = none := by
  induction s with
  | nil => rfl
  | cons hd tl ih =>
    obtain ⟨k, d⟩ := hd
    by_cases h : k = u
    · simpa [storeDel, h] using ih
    · simpa [storeDel, storeGet, h] using ih

theorem storeGet_append_of_none {s1 : Store} (s2 : Store) (u : String)
    (h : storeGet s1 u = none) :
    storeGet (s1 ++ s2) u = storeGet s2 u := by
  induction s1 with
  | nil => rfl
  | cons hd tl ih =>
    obtain ⟨k, d⟩ := hd
    by_cases hk : k = u
    · simp [storeGet, hk] at h
    · simp only [storeGet, hk, if_false] at h
      simpa [storeGet, hk] using ih h

theorem storeGet_storeSet_self (s : Store) (u : String) (d : TokenData) :
    storeGet (storeSet s u d) u = some d := by
  unfold storeSet
  rw [storeGet_append_of_none _ u (storeGet_storeDel s u)]
  simp [storeGet]

theorem pollUserStrain_preserves_timers (st : PollerState) (u : String)
    (api : ApiResult) (fo : FoundryOutcome) :
    (pollUserStrain st u api fo).1.activeTimers = st.activeTimers ∧
    (pollUserStrain st u api fo).1.nextHandle = st.nextHandle := by
  cases api with
  | error => exact ⟨rfl, rfl⟩
  | ok records =>
    cases records with
    | nil => exact ⟨rfl, rfl⟩
    | cons rec rest =>
      cases fo with
      | fail => exact ⟨rfl, rfl⟩
      | ok =>
        simp only [pollUserStrain]
        split <;> exact ⟨rfl, rfl⟩

theorem emitStrain_prefix (ls1 : List Listener) (l : Listener)
    (ls2 : List Listener) (uid : String) (sample : Sample)
    (h1 : ∀ x ∈ ls1, x.userFilter = uid → x.throws = false)
    (h2 : l.userFilter = uid) (h3 : l.throws = true) :
    emitStrain (ls1 ++ l :: ls2) uid sample =
      ((ls1.filter (fun x => x.userFilter == uid)).map
        (fun x => (x.id, sample)), true) := by
  induction ls1 with
  | nil => simp [emitStrain, h2, h3]
  | cons hd tl ih =>
    have ihh := ih (fun x hx hfx => h1 x (List.mem_cons_of_mem _ hx) hfx)
    by_cases hf : hd.userFilter = uid
    · have ht : hd.throws = false := h1 hd (List.mem_cons_self _ _) hf
      simp [emitStrain, hf, ht, ihh, List.filter_cons]
    · simp [emitStrain, hf, ihh, List.filter_cons]

theorem countP_eq_zero_of_any_eq_false {α : Type} (p : α → Bool) (l : List α)
    (h : l.any p = false) : l.countP p = 0 := by
  induction l with
  | nil => rfl
  | cons hd tl ih =>
    simp only [List.any_cons, Bool.or_eq_false_iff] at h
    simp [List.countP_cons, h.1, ih h.2]

/-! Concrete records used by counterexamples and witnesses. -/

/-- A credential as stored after authorization: both tokens present,
`expiresAt` 1000 (epoch ms). -/
def tdStored : TokenData :=
  { emptyData with
    accessToken := some "a", refreshToken := some "r",
    expiresAt := some 1000 }

/-- The patch `{strainPollingEnabled: true}` sent by
`POST /settings/strain-polling`. -/
def enablePatch : TokenData :=
  { emptyData with strainPollingEnabled := some true }

/-- What `set` actually persists for that patch at `now = 5000`. -/
def tdAfterEnable : TokenData :=
  { emptyData with
    strainPollingEnabled := some true,
    updatedAt := some "2026-01-01T00:00:00Z", expiresAt := some 86405000 }

/-! Claim theorems. -/

/-- C1: the claim says `set(userId, partial)` merges the given fields into the
previously stored record, every unnamed field keeping its previous value.  The
code overwrites instead: evaluated at the failing input — user `"u"` stored
with `accessToken "a"`, `refreshToken "r"`, `expiresAt 1000`, then
`set("u", {strainPollingEnabled: true})` at `now = 5000` — the stored record
afterwards has lost both tokens and holds only the supplied field, the
`updatedAt` stamp, and the defaulted `expiresAt = now + 86400000`. -/
theorem c1_set_overwrites_at_failing_input :
    storeGet
      (TokenStorage.set [("u", tdStored)] 5000 "2026-01-01T00:00:00Z" "u"
        enablePatch)
      "u"
    = some tdAfterEnable ∧ tdAfterEnable.accessToken = none
    ∧ tdAfterEnable.refreshToken = none := by
  decide

/-- C6: a cycle that fails for any reason leaves the schedule-entry map
unchanged — `pollUserStrain` never adds, removes, or replaces a timer entry
(nor moves the handle counter), whatever the API result, Foundry outcome, or
listener behaviour. -/
theorem c6_pollUserStrain_preserves_schedule (st : PollerState) (u : String)
    (api : ApiResult) (fo : FoundryOutcome) :
    (pollUserStrain st u api fo).1.activeTimers = st.activeTimers ∧
    (pollUserStrain st u api fo).1.nextHandle = st.nextHandle :=
  pollUserStrain_preserves_timers st u api fo

/-- C7: when the metric source returns zero records the cycle completes
normally with the `null` result, leaving the whole poller state — in
particular the Foundry log and the delivery log — untouched: no sink call, no
broadcast. -/
theorem c7_empty_records_noop (st : PollerState) (u : String)
    (fo : FoundryOutcome) :
    pollUserStrain st u (ApiResult.ok []) fo = (st, none) :=
  rfl

/-- C9: `stopUserPolling` on a user with no active schedule entry returns
without error and leaves the poller state (in particular the schedule-entry
map) completely unchanged. -/
theorem c9_stop_noop_when_absent (st : PollerState) (u : String)
    (h : st.activeTimers.find? (fun p => p.1 == u) = none) :
    stopUserPolling st u = st := by
  simp [stopUserPolling, h]

/-- C9 witness: stopping user `"u"` while only `"v"` is scheduled is the
identity. -/
theorem c9_witness :
    ({ activeTimers := [("v", 3)], nextHandle := 4, immediatePolls := ["v"],
       foundrySent := [], listeners := [], delivered := [] } :
        PollerState).activeTimers.find? (fun p => p.1 == "u") = none ∧
    stopUserPolling
      { activeTimers := [("v", 3)], nextHandle := 4, immediatePolls := ["v"],
        foundrySent := [], listeners := [], delivered := [] } "u"
    = { activeTimers := [("v", 3)], nextHandle := 4, immediatePolls := ["v"],
        foundrySent := [], listeners := [], delivered := [] } :=
  ⟨by decide, c9_stop_noop_when_absent _ "u" (by decide)⟩

/-- C10: when the patch given to `set` carries no truthy `expiresAt`, the
persisted record's `expiresAt` is `Date.now() + 86400000`; and whatever the
patch, the record built by `set` never lacks an `expiresAt`. -/
theorem c10_set_defaults_expiresAt (s : Store) (now : Int)
    (nowIso u : String) (patch q : TokenData)
    (h : truthyExpiry patch.expiresAt = false) :
    storeGet (TokenStorage.set s now nowIso u patch) u
      = some (setRecord now nowIso patch)
    ∧ (setRecord now nowIso patch).expiresAt = some (now + 86400000)
    ∧ (setRecord now nowIso q).expiresAt ≠ none := by
  refine ⟨storeGet_storeSet_self s u _, by simp [setRecord, h], ?_⟩
  unfold setRecord
  by_cases hq : truthyExpiry q.expiresAt
  · cases hqe : q.expiresAt with
    | none => rw [hqe] at hq; simp [truthyExpiry] at hq
    | some e => rw [hqe] at hq; simp [hq]
  · simp [hq]

/-- C10 witness: writing the empty patch for user `"u"` at `now = 100`
stores a record with `expiresAt = 86400100`. -/
theorem c10_witness :
    truthyExpiry emptyData.expiresAt = false ∧
    (storeGet (TokenStorage.set [] 100 "t" "u" emptyData) "u"
        = some (setRecord 100 "t" emptyData)
      ∧ (setRecord 100 "t" emptyData).expiresAt = some (100 + 86400000)
      ∧ (setRecord 100 "t"
          { emptyData with expiresAt := some 7 }).expiresAt ≠ none) :=
  ⟨by decide,
   c10_set_defaults_expiresAt [] 100 "t" "u" emptyData
     { emptyData with expiresAt := some 7 } (by decide)⟩

/-- C2 counterexample: the claim says a transient refresh failure (here a
network error) propagates to the caller of `get` without deleting the stored
credential.  At the concrete input — user `"u"` stored expired
(`expiresAt 1000 < now 2000`) and the refresh fetch rejecting — `get`
instead returns `null` and the store is left empty: the credential was
deleted although the authorization server never rejected the grant. -/
theorem c2_counterexample :
    TokenStorage.get [("u", tdStored)] 2000 "iso" "u"
      RefreshOutcome.networkError = (none, []) := by
  decide

/-- C2 amended: any refresh failure — rejected fetch or any non-2xx
response, invalid-grant or not — causes the stored credential to be deleted,
and `get` returns `null` (NotFound) to its caller rather than propagating
the error. -/
theorem c2_refresh_failure_deletes (s : Store) (u : String) (td : TokenData)
    (e now : Int) (nowIso : String) (resp : RefreshOutcome)
    (hread : storeGet s u = some td) (hexp : td.expiresAt = some e)
    (h0 : e ≠ 0) (hlt : e < now)
    (hfail : ∀ a r x, resp ≠ RefreshOutcome.ok a r x) :
    TokenStorage.get s now nowIso u resp = (none, storeDel s u) ∧
    storeGet (storeDel s u) u = none := by
  refine ⟨?_, storeGet_storeDel s u⟩
  simp only [TokenStorage.get, TokenStorage.getRaw, hread, hexp]
  rw [if_pos ⟨h0, hlt⟩]
  cases resp with
  | ok a r x => exact absurd rfl (hfail a r x)
  | httpError st b => rfl
  | networkError => rfl

/-- C2 witness: user `"u2"` stored expired (`expiresAt 5 < now 10`), refresh
answered with a 400 response: the record is deleted and `get` returns
`null`. -/
theorem c2_witness :
    (storeGet [("u2", tdStored)] "u2" = some tdStored
      ∧ tdStored.expiresAt = some 1000 ∧ (1000 : Int) ≠ 0
      ∧ (1000 : Int) < 2026)
    ∧ (TokenStorage.get [("u2", tdStored)] 2026 "iso" "u2"
        (RefreshOutcome.httpError 400 "invalid_grant")
        = (none, storeDel [("u2", tdStored)] "u2")
      ∧ storeGet (storeDel [("u2", tdStored)] "u2") "u2" = none) :=
  ⟨⟨by decide, by decide, by decide, by decide⟩,
   c2_refresh_failure_deletes [("u2", tdStored)] "u2" tdStored 1000 2026
     "iso" (RefreshOutcome.httpError 400 "invalid_grant")
     (by decide) (by decide) (by decide) (by decide)
     (fun a r x h => RefreshOutcome.noConfusion h)⟩

/-- C8 counterexample: the claim says every credential `get` returns
satisfies `now < expiresAt` at the expiry check.  At the boundary input —
stored `expiresAt = 1000` and `now = 1000` — the check
`expiresAt < Date.now()` is false, so `get` returns the stored credential
even though `now < expiresAt` does not hold. -/
theorem c8_counterexample :
    (TokenStorage.get [("u", tdStored)] 1000 "iso" "u"
        RefreshOutcome.networkError).1 = some tdStored
    ∧ tdStored.expiresAt = some 1000 ∧ ¬ ((1000 : Int) < 1000) := by
  decide

/-- C8 amended: for a stored credential with a truthy `expiresAt` and a
refresh endpoint answering 2xx with a nonnegative `expires_in`, every
credential `get` returns satisfies the non-strict bound `now ≤ expiresAt`;
and when the credential is strictly expired (`expiresAt < now`), `get`
returns exactly the freshly refreshed credential — never the stale one. -/
theorem c8_get_returns_unexpired (s : Store) (u : String) (td : TokenData)
    (e now x : Int) (nowIso a r : String)
    (hread : storeGet s u = some td) (hexp : td.expiresAt = some e)
    (h0 : e ≠ 0) (hx : 0 ≤ x) :
    (∀ rd, (TokenStorage.get s now nowIso u
        (RefreshOutcome.ok a r x)).1 = some rd →
      ∃ e2, rd.expiresAt = some e2 ∧ now ≤ e2)
    ∧ (e < now →
      (TokenStorage.get s now nowIso u (RefreshOutcome.ok a r x)).1
        = some { td with
                 accessToken := some a, refreshToken := some r,
                 expiresAt := some (now + x * 1000) }) := by
  have hx1000 : (0 : Int) ≤ x * 1000 := by positivity
  by_cases hlt : e < now
  · have hres : (TokenStorage.get s now nowIso u
        (RefreshOutcome.ok a r x)).1
        = some { td with
                 accessToken := some a, refreshToken := some r,
                 expiresAt := some (now + x * 1000) } := by
      simp only [TokenStorage.get, TokenStorage.getRaw, hread, hexp]
      rw [if_pos ⟨h0, hlt⟩]
      rfl
    refine ⟨?_, fun _ => hres⟩
    intro rd hrd
    rw [hres] at hrd
    refine ⟨now + x * 1000, ?_, by linarith⟩
    cases hrd
    rfl
  · have hres : (TokenStorage.get s now nowIso u
        (RefreshOutcome.ok a r x)).1 = some td := by
      simp only [TokenStorage.get, TokenStorage.getRaw, hread, hexp]
      rw [if_neg (fun hc => hlt hc.2)]
    refine ⟨?_, fun hc => absurd hc hlt⟩
    intro rd hrd
    rw [hres] at hrd
    cases hrd
    exact ⟨e, hexp, le_of_not_lt hlt⟩

/-- C8 witness: user `"u"` stored expired (`expiresAt 1000 < now 4000`),
refresh answering tokens valid for 3600 seconds: `get` returns the refreshed
credential, expiring at `4000 + 3600*1000`. -/
theorem c8_witness :
    (storeGet [("u", tdStored)] "u" = some tdStored
      ∧ tdStored.expiresAt = some 1000 ∧ (1000 : Int) ≠ 0
      ∧ (0 : Int) ≤ 3600)
    ∧ ((∀ rd, (TokenStorage.get [("u", tdStored)] 4000 "iso" "u"
          (RefreshOutcome.ok "na" "nr" 3600)).1 = some rd →
        ∃ e2, rd.expiresAt = some e2 ∧ (4000 : Int) ≤ e2)
      ∧ ((1000 : Int) < 4000 →
        (TokenStorage.get [("u", tdStored)] 4000 "iso" "u"
            (RefreshOutcome.ok "na" "nr" 3600)).1
          = some { tdStored with
                   accessToken := some "na", refreshToken := some "nr",
                   expiresAt := some (4000 + 3600 * 1000) })) :=
  ⟨⟨by decide, by decide, by decide, by decide⟩,
   c8_get_returns_unexpired [("u", tdStored)] "u" tdStored 1000 4000 3600
     "iso" "na" "nr" (by decide) (by decide) (by decide) (by decide)⟩

/-- C3 counterexample: the claim says a throwing subscriber never prevents
delivery to the other subscribers of the same publish.  At the concrete
input — listener 0 (matching, throwing) registered before listener 1
(matching, well-behaved) — the publish of sample `"s1"` delivers to nobody:
the emit aborts at listener 0 and listener 1 never receives the sample
(the cycle itself returns `null` instead of crashing). -/
theorem c3_counterexample :
    (pollUserStrain
      { activeTimers := [], nextHandle := 0, immediatePolls := [],
        foundrySent := [], listeners := [⟨0, "u", true⟩, ⟨1, "u", false⟩],
        delivered := [] }
      "u" (ApiResult.ok ["s1"]) FoundryOutcome.ok).1.delivered = [] := by
  decide

/-- C3 amended: delivery is only partially isolated.  When the registered
listeners are `ls1 ++ l :: ls2` with no matching throwing listener in `ls1`
and `l` a matching throwing one, a publish delivers the sample exactly to
the matching listeners of `ls1`; listener `l` aborts the emit, so every
listener in `ls2` is skipped; the escaped exception is caught at the cycle
boundary, so the polling cycle completes (returning `null`) with the
schedule map untouched. -/
theorem c3_throwing_listener_aborts_emit (st : PollerState)
    (ls1 ls2 : List Listener) (l : Listener) (u : String) (sample : Sample)
    (hls : st.listeners = ls1 ++ l :: ls2)
    (h1 : ∀ x ∈ ls1, x.userFilter = u → x.throws = false)
    (h2 : l.userFilter = u) (h3 : l.throws = true) :
    (pollUserStrain st u (ApiResult.ok [sample]) FoundryOutcome.ok).1.delivered
      = st.delivered
        ++ (ls1.filter (fun x => x.userFilter == u)).map
             (fun x => (x.id, sample))
    ∧ (pollUserStrain st u (ApiResult.ok [sample]) FoundryOutcome.ok).2 = none
    ∧ (pollUserStrain st u
        (ApiResult.ok [sample]) FoundryOutcome.ok).1.activeTimers
      = st.activeTimers := by
  have he := emitStrain_prefix ls1 l ls2 u sample h1 h2 h3
  refine ⟨?_, ?_, (pollUserStrain_preserves_timers st u _ _).1⟩
  · simp only [pollUserStrain, hls, he]
    simp
  · simp only [pollUserStrain, hls, he]
    simp

/-- C3 witness: listeners `[⟨5, "u", false⟩, ⟨6, "u", true⟩, ⟨7, "u", false⟩]`
— listener 5 receives the sample, the throwing listener 6 aborts the emit,
listener 7 receives nothing, and the cycle returns `null` with timers
untouched. -/
theorem c3_witness :
    ((∀ x ∈ [Listener.mk 5 "u" false], x.userFilter = "u" → x.throws = false)
      ∧ (Listener.mk 6 "u" true).userFilter = "u"
      ∧ (Listener.mk 6 "u" true).throws = true)
    ∧ ((pollUserStrain
        { activeTimers := [("u", 0)], nextHandle := 1, immediatePolls := [],
          foundrySent := [],
          listeners := [⟨5, "u", false⟩, ⟨6, "u", true⟩, ⟨7, "u", false⟩],
          delivered := [] }
        "u" (ApiResult.ok ["s2"]) FoundryOutcome.ok).1.delivered
        = [] ++ (([Listener.mk 5 "u" false]).filter
            (fun x => x.userFilter == "u")).map (fun x => (x.id, "s2"))
      ∧ (pollUserStrain
        { activeTimers := [("u", 0)], nextHandle := 1, immediatePolls := [],
          foundrySent := [],
          listeners := [⟨5, "u", false⟩, ⟨6, "u", true⟩, ⟨7, "u", false⟩],
          delivered := [] }
        "u" (ApiResult.ok ["s2"]) FoundryOutcome.ok).2 = none
      ∧ (pollUserStrain
        { activeTimers := [("u", 0)], nextHandle := 1, immediatePolls := [],
          foundrySent := [],
          listeners := [⟨5, "u", false⟩, ⟨6, "u", true⟩, ⟨7, "u", false⟩],
          delivered := [] }
        "u" (ApiResult.ok ["s2"]) FoundryOutcome.ok).1.activeTimers
        = [("u", 0)]) :=
  ⟨⟨by decide, by decide, by decide⟩,
   c3_throwing_listener_aborts_emit
     { activeTimers := [("u", 0)], nextHandle := 1, immediatePolls := [],
       foundrySent := [],
       listeners := [⟨5, "u", false⟩, ⟨6, "u", true⟩, ⟨7, "u", false⟩],
       delivered := [] }
     [Listener.mk 5 "u" false] [Listener.mk 7 "u" false]
     (Listener.mk 6 "u" true) "u" "s2"
     (by decide) (by decide) (by decide) (by decide)⟩

/-- C5: `startUserPolling` is idempotent — starting a user with no existing
entry twice in succession equals starting it once, leaves exactly one timer
entry for that user, and records exactly one immediate poll cycle. -/
theorem c5_startUserPolling_idempotent (st : PollerState) (u : String)
    (h : st.activeTimers.any (fun p => p.1 == u) = false) :
    startUserPolling (startUserPolling st u) u = startUserPolling st u
    ∧ (startUserPolling (startUserPolling st u) u).activeTimers.countP
        (fun p => p.1 == u) = 1
    ∧ (startUserPolling (startUserPolling st u) u).immediatePolls
      = st.immediatePolls ++ [u] := by
  have h1 : startUserPolling st u =
      { st with
        immediatePolls := st.immediatePolls ++ [u],
        activeTimers := st.activeTimers ++ [(u, st.nextHandle)],
        nextHandle := st.nextHandle + 1 } := by
    simp [startUserPolling, h]
  have h2 : (st.activeTimers ++ [(u, st.nextHandle)]).any
      (fun p => p.1 == u) = true := by
    simp [List.any_append]
  have hsecond :
      startUserPolling (startUserPolling st u) u = startUserPolling st u := by
    rw [h1]
    simp [startUserPolling, h2]
  refine ⟨hsecond, ?_, ?_⟩
  · rw [hsecond, h1]
    simp [List.countP_append, List.countP_cons,
      countP_eq_zero_of_any_eq_false _ _ h]
  · rw [hsecond, h1]

/-- C5 witness: starting user `"u"` twice from the state where only `"v"`
is scheduled yields a single entry for `"u"` and a single recorded
immediate poll. -/
theorem c5_witness :
    ({ activeTimers := [("v", 3)], nextHandle := 4, immediatePolls := ["v"],
       foundrySent := [], listeners := [], delivered := [] } :
        PollerState).activeTimers.any (fun p => p.1 == "u") = false
    ∧ (startUserPolling (startUserPolling
          { activeTimers := [("v", 3)], nextHandle := 4,
            immediatePolls := ["v"], foundrySent := [], listeners := [],
            delivered := [] } "u") "u"
        = startUserPolling
          { activeTimers := [("v", 3)], nextHandle := 4,
            immediatePolls := ["v"], foundrySent := [], listeners := [],
            delivered := [] } "u"
      ∧ (startUserPolling (startUserPolling
          { activeTimers := [("v", 3)], nextHandle := 4,
            immediatePolls := ["v"], foundrySent := [], listeners := [],
            delivered := [] } "u") "u").activeTimers.countP
            (fun p => p.1 == "u") = 1
      ∧ (startUserPolling (startUserPolling
          { activeTimers := [("v", 3)], nextHandle := 4,
            immediatePolls := ["v"], foundrySent := [], listeners := [],
            delivered := [] } "u") "u").immediatePolls = ["v"] ++ ["u"]) :=
  ⟨by decide,
   c5_startUserPolling_idempotent
     { activeTimers := [("v", 3)], nextHandle := 4, immediatePolls := ["v"],
       foundrySent := [], listeners := [], delivered := [] }
     "u" (by decide)⟩

/-- C4 counterexample: the claim says two concurrent `get(u)` calls against
an expired credential perform exactly one refresh round trip and share its
result.  At the concrete input — user `"u"` stored expired, both callers
interleaved so that each reads before either refreshes (schedule
read₁ read₂ refresh₁ refresh₂, a legal ordering of the `await` points, as
nothing in the code serializes them) — two round trips are issued and the
callers finish with different credentials. -/
theorem c4_counterexample :
    (runTwo 2000 "iso" "u" (RefreshOutcome.ok "a1" "rt1" 3600)
        (RefreshOutcome.ok "a2" "rt2" 3600) [true, false, true, false]
        { store := [("u", tdStored)], fetchCount := 0 }
        GetPhase.ready GetPhase.ready).1.fetchCount = 2
    ∧ (runTwo 2000 "iso" "u" (RefreshOutcome.ok "a1" "rt1" 3600)
        (RefreshOutcome.ok "a2" "rt2" 3600) [true, false, true, false]
        { store := [("u", tdStored)], fetchCount := 0 }
        GetPhase.ready GetPhase.ready).2.1
      ≠ (runTwo 2000 "iso" "u" (RefreshOutcome.ok "a1" "rt1" 3600)
        (RefreshOutcome.ok "a2" "rt2" 3600) [true, false, true, false]
        { store := [("u", tdStored)], fetchCount := 0 }
        GetPhase.ready GetPhase.ready).2.2 := by
  decide

/-- C4 amended: refresh is not single-flight.  Under the interleaving where
both concurrent `get(u)` calls pass the expiry check before either refresh
completes, each caller issues its own refresh round trip — two in total —
and each finishes with the credential built from its own response; the
second write overwrites the first in the store. -/
theorem c4_concurrent_gets_double_refresh (s : Store) (u : String)
    (td : TokenData) (e now : Int) (nowIso : String)
    (a1 rt1 a2 rt2 : String) (x1 x2 : Int)
    (hread : storeGet s u = some td) (hexp : td.expiresAt = some e)
    (h0 : e ≠ 0) (hlt : e < now) :
    runTwo now nowIso u (RefreshOutcome.ok a1 rt1 x1)
      (RefreshOutcome.ok a2 rt2 x2) [true, false, true, false]
      { store := s, fetchCount := 0 } GetPhase.ready GetPhase.ready
    = ({ store := TokenStorage.set
          (TokenStorage.set s now nowIso u
            { td with
              accessToken := some a1, refreshToken := some rt1,
              expiresAt := some (now + x1 * 1000) })
          now nowIso u
          { td with
            accessToken := some a2, refreshToken := some rt2,
            expiresAt := some (now + x2 * 1000) },
         fetchCount := 2 },
       GetPhase.finished (some { td with
         accessToken := some a1, refreshToken := some rt1,
         expiresAt := some (now + x1 * 1000) }),
       GetPhase.finished (some { td with
         accessToken := some a2, refreshToken := some rt2,
         expiresAt := some (now + x2 * 1000) })) := by
  have hc : e ≠ 0 ∧ e < now := ⟨h0, hlt⟩
  simp only [runTwo, stepGet, hread, hexp, if_pos hc,
    TokenStorage.refreshToken]

/-- C4 witness: the double-refresh theorem evaluated at user `"u"` stored
expired at 1000, `now = 2000`, with the two refresh responses returning
tokens `"a1"` and `"a2"`. -/
theorem c4_witness :
    (storeGet [("u", tdStored)] "u" = some tdStored
      ∧ tdStored.expiresAt = some 1000 ∧ (1000 : Int) ≠ 0
      ∧ (1000 : Int) < 2000)
    ∧ runTwo 2000 "iso" "u" (RefreshOutcome.ok "a1" "rt1" 3600)
        (RefreshOutcome.ok "a2" "rt2" 3600) [true, false, true, false]
        { store := [("u", tdStored)], fetchCount := 0 }
        GetPhase.ready GetPhase.ready
      = ({ store := TokenStorage.set
            (TokenStorage.set [("u", tdStored)] 2000 "iso" "u"
              { tdStored with
                accessToken := some "a1", refreshToken := some "rt1",
                expiresAt := some (2000 + 3600 * 1000) })
            2000 "iso" "u"
            { tdStored with
              accessToken := some "a2", refreshToken := some "rt2",
              expiresAt := some (2000 + 3600 * 1000) },
           fetchCount := 2 },
         GetPhase.finished (some { tdStored with
           accessToken := some "a1", refreshToken := some "rt1",
           expiresAt := some (2000 + 3600 * 1000) }),
         GetPhase.finished (some { tdStored with
           accessToken := some "a2", refreshToken := some "rt2",
           expiresAt := some (2000 + 3600 * 1000) })) :=
  ⟨⟨by decide, by decide, by decide, by decide⟩,
   c4_concurrent_gets_double_refresh [("u", tdStored)] "u" tdStored 1000
     2000 "iso" "a1" "rt1" "a2" "rt2" 3600 3600
     (by decide) (by decide) (by decide) (by decide)⟩

end WhoopApp
